import Mathlib

/-!
Shallow embedding of the iris viewport render/readback engine
(src/viewport/{camera,gpu,renderer,mod}.rs) for checking the
natural-language specification against the code.

Modelling conventions:
* `f32` arithmetic is modelled by exact rational arithmetic over `ℚ`
  (the properties checked are order/equality facts that are stable under
  this idealisation; where a division by zero occurs in the code, the
  `ℚ` convention `x / 0 = 0` produces a degenerate value just as the
  `f32` code produces non-finite entries).
* `u32` arithmetic is modelled on `Nat` with an explicit `% 4294967296`
  at every operation that can overflow (Rust release builds wrap).
* GPU and host side effects (queue submissions, buffer mapping, logging,
  presenting) are modelled as explicit traces of `Act` values emitted
  in the source's statement order; state that the code mutates is passed
  explicitly.
-/

/-! ## Rational 4×4 matrices, following glam's column-major `Mat4` -/

structure Vec4Q where
  x : ℚ
  y : ℚ
  z : ℚ
  w : ℚ
deriving DecidableEq, Repr

structure Mat4Q where
  col0 : Vec4Q
  col1 : Vec4Q
  col2 : Vec4Q
  col3 : Vec4Q
deriving DecidableEq, Repr

def Vec4Q.smul (a : ℚ) (v : Vec4Q) : Vec4Q :=
  ⟨a * v.x, a * v.y, a * v.z, a * v.w⟩

def Vec4Q.add (u v : Vec4Q) : Vec4Q :=
  ⟨u.x + v.x, u.y + v.y, u.z + v.z, u.w + v.w⟩

/-- `m * v` for a column-major matrix, as in glam. -/
def Mat4Q.mulVec (m : Mat4Q) (v : Vec4Q) : Vec4Q :=
  ((Vec4Q.smul v.x m.col0).add (Vec4Q.smul v.y m.col1)).add
    ((Vec4Q.smul v.z m.col2).add (Vec4Q.smul v.w m.col3))

/-- `m * n` column by column, as in glam. -/
def Mat4Q.mul (m n : Mat4Q) : Mat4Q :=
  ⟨m.mulVec n.col0, m.mulVec n.col1, m.mulVec n.col2, m.mulVec n.col3⟩

/-- glam's `Mat4::orthographic_rh` (right-handed, zero-to-one depth),
translated term by term (`rcp_width = 1/(right-left)`, etc.). -/
def Mat4Q.orthographic_rh (left right bottom top near far : ℚ) : Mat4Q :=
  let rcp_width := 1 / (right - left)
  let rcp_height := 1 / (top - bottom)
  let r := 1 / (near - far)
  ⟨⟨rcp_width + rcp_width, 0, 0, 0⟩,
   ⟨0, rcp_height + rcp_height, 0, 0⟩,
   ⟨0, 0, r, 0⟩,
   ⟨-(left + right) * rcp_width, -(top + bottom) * rcp_height, r * near, 1⟩⟩

/-- glam's `Mat4::from_scale`. -/
def Mat4Q.from_scale (sx sy sz : ℚ) : Mat4Q :=
  ⟨⟨sx, 0, 0, 0⟩, ⟨0, sy, 0, 0⟩, ⟨0, 0, sz, 0⟩, ⟨0, 0, 0, 1⟩⟩

/-- glam's `Mat4::from_translation`. -/
def Mat4Q.from_translation (tx ty tz : ℚ) : Mat4Q :=
  ⟨⟨1, 0, 0, 0⟩, ⟨0, 1, 0, 0⟩, ⟨0, 0, 1, 0⟩, ⟨tx, ty, tz, 1⟩⟩

/-! ## Camera (src/viewport/camera.rs) -/

structure Camera where
  position : ℚ × ℚ
  zoom : ℚ
  aspect_ratio : ℚ
deriving DecidableEq, Repr

/-- `Camera::new`: origin position, zoom 1, aspect ratio 1. -/
def Camera.new : Camera :=
  ⟨(0, 0), 1, 1⟩

/-- `Camera::set_viewport_size`: recompute the aspect ratio from the
`u32` viewport dimensions, guarded by `height > 0`. -/
def Camera.set_viewport_size (c : Camera) (width height : Nat) : Camera :=
  if 0 < height then
    { c with aspect_ratio := (width : ℚ) / (height : ℚ) }
  else c

/-- `Camera::build_view_projection_matrix`:
orthographic projection (half-extents `aspect_ratio` and `1`) times
`scale(zoom, zoom, 1) * translate(-position.x, -position.y, 0)`. -/
def Camera.build_view_projection_matrix (c : Camera) : Mat4Q :=
  let projection :=
    Mat4Q.orthographic_rh (-c.aspect_ratio) c.aspect_ratio (-1) 1 (-1) 1
  let view :=
    (Mat4Q.from_scale c.zoom c.zoom 1).mul
      (Mat4Q.from_translation (-c.position.1) (-c.position.2) 0)
  projection.mul view

/-! ## GPU context (src/viewport/gpu.rs) -/

inductive Backend where
  | vulkan
  | gl
  | metal
  | dx12
deriving DecidableEq, Repr

/-- The wgpu instance in `GpuContext::new` is created with
`backends: Backends::VULKAN | Backends::GL`. -/
def instance_backends : List Backend :=
  [Backend.vulkan, Backend.gl]

/-- The drawing-context type of the host windowing surface.  The host is
GTK4, whose own drawing surface is OpenGL; the repository documents this
in src/renderer.rs ("Vulkan only - completely isolated from GTK's GL
context"). -/
def host_surface_context : Backend :=
  Backend.gl

inductive PowerPref where
  | low_power
  | high_performance
deriving DecidableEq, Repr

structure AdapterOptions where
  power_preference : PowerPref
  compatible_surface_is_none : Bool
  force_fallback_adapter : Bool
deriving DecidableEq, Repr

/-- The `RequestAdapterOptions` passed in `GpuContext::new`. -/
def adapter_options : AdapterOptions :=
  ⟨PowerPref.high_performance, true, false⟩

inductive TexFormat where
  | rgba8Unorm
  | rgba8UnormSrgb
deriving DecidableEq, Repr

structure GpuContext where
  texture_format : TexFormat
deriving DecidableEq, Repr

/-- `GpuContext::new`, with the environment abstracted by whether an
adapter is found and whether device creation succeeds; the two
`.expect(...)` calls abort the process on failure, modelled by `none`. -/
def GpuContext.new (adapter_found device_created : Bool) : Option GpuContext :=
  if adapter_found then
    if device_created then some ⟨TexFormat.rgba8Unorm⟩ else none
  else none

/-! ## Renderer (src/viewport/renderer.rs) -/

/-- `u32` modulus: Rust release-build arithmetic on `u32` wraps here. -/
def u32Mod : Nat := 4294967296

/-- The texture bound at binding 1 of the current bind group
(dimensions plus raw RGBA byte content). -/
structure Texture where
  width : Nat
  height : Nat
  data : List Nat
deriving DecidableEq, Repr

/-- The resource-binding set: uniform buffer + texture view + sampler;
only the texture varies between bind groups, so it is the modelled part. -/
structure BindGroup where
  texture : Texture
deriving DecidableEq, Repr

/-- The offscreen render target and its readback buffer, produced by one
`create_targets` call.  `texId` is the allocation serial number, so a
recreated target is never equal to the one it replaces. -/
structure OutputTarget where
  texId : Nat
  padded_bytes_per_row : Nat
  buffer_size : Nat
deriving DecidableEq, Repr

/-- `IrisRenderer::create_targets`: row stride is `width * 4` padded up
to a multiple of 256, all in wrapping `u32` arithmetic; the readback
buffer is `padded * height` bytes (the product is computed in `u32`
before the cast to `u64`). -/
def create_targets (allocId width height : Nat) : OutputTarget :=
  let unpadded := width * 4 % u32Mod
  let align := 256
  let padding := (align - unpadded % align) % align
  let padded := (unpadded + padding) % u32Mod
  ⟨allocId, padded, padded * height % u32Mod⟩

/-- `IrisRenderer`: output dimensions, current output target, current
resource-binding set and current image dimensions (an `f32` pair in the
source).  `alloc_count` counts `create_targets` calls (a ghost
reallocation counter; spec section 8 property 6 asks for one). -/
structure IrisRenderer where
  width : Nat
  height : Nat
  output_target : OutputTarget
  bind_group : BindGroup
  image_dims : ℚ × ℚ
  alloc_count : Nat
deriving DecidableEq, Repr

/-- `IrisRenderer::new`: creates the targets for the given size and binds
a 1×1 default texture with the single opaque-white texel
`[255, 255, 255, 255]`; `image_dims` starts as `(1.0, 1.0)`. -/
def IrisRenderer.new (width height : Nat) : IrisRenderer :=
  { width := width
    height := height
    output_target := create_targets 1 width height
    bind_group := ⟨⟨1, 1, [255, 255, 255, 255]⟩⟩
    image_dims := (1, 1)
    alloc_count := 1 }

/-- `IrisRenderer::load_image` (the successful GPU upload): store the
decoded dimensions in `image_dims`, create and fill a texture of those
dimensions, and replace `bind_group` with a new set referencing it.
In the source `self.image_dims` is assigned first and `self.bind_group`
last; both happen inside this one synchronous call. -/
def IrisRenderer.load_image (r : IrisRenderer) (w h : Nat) (rgba : List Nat) :
    IrisRenderer :=
  { r with
    image_dims := ((w : ℚ), (h : ℚ))
    bind_group := ⟨⟨w, h, rgba⟩⟩ }

/-- The statement-level order of `IrisRenderer::load_image`, used to
examine which mutation comes last. -/
inductive LoadStep where
  | convert_rgba
  | set_image_dims
  | create_texture
  | write_texture
  | create_view
  | swap_bind_group
deriving DecidableEq, Repr

/-- `IrisRenderer::load_image` statement order: `to_rgba8`, the
`self.image_dims` assignment, texture creation, `write_texture`,
view creation, then the `self.bind_group` assignment. -/
def load_image_steps : List LoadStep :=
  [LoadStep.convert_rgba, LoadStep.set_image_dims, LoadStep.create_texture,
   LoadStep.write_texture, LoadStep.create_view, LoadStep.swap_bind_group]

/-- `IrisRenderer::resize`: recreate the targets only when both
dimensions are positive and at least one differs from the current one;
otherwise the whole renderer is left untouched. -/
def IrisRenderer.resize (r : IrisRenderer) (width height : Nat) : IrisRenderer :=
  if 0 < width ∧ 0 < height ∧ (width ≠ r.width ∨ height ≠ r.height) then
    { r with
      width := width
      height := height
      output_target := create_targets (r.alloc_count + 1) width height
      alloc_count := r.alloc_count + 1 }
  else r

/-- The image-scale computation at the top of `IrisRenderer::render`:
`aspect = dims.0 / dims.1`; wide images get `[1, 1/aspect]`, others
`[aspect, 1]`. -/
def imageScale (dims : ℚ × ℚ) : ℚ × ℚ :=
  let aspect := dims.1 / dims.2
  if 1 < aspect then (1, 1 / aspect) else (aspect, 1)

/-- Observable effects of the render and tick routines, in source
statement order. -/
inductive Act where
  | write_uniforms (view_proj : Mat4Q) (image_scale : ℚ × ℚ)
  | begin_render_pass
  | set_pipeline
  | set_bind_group (bg : BindGroup)
  | draw (vertices : Nat)
  | end_pass
  | copy_texture_to_buffer (padded height : Nat)
  | submit
  | map_async_read
  | device_poll_wait
  | block_on_receiver
  | present_frame (width height padded : Nat)
  | unmap_buffer
  | log_decode_error
  | camera_set_viewport (w h : Nat)
deriving DecidableEq, Repr

/-- `IrisRenderer::render`: write the uniforms (view-projection matrix
and image scale), run the render pass (clear, pipeline, bind group, one
six-vertex draw), copy the output texture into the readback buffer at
the padded row stride, and submit.  No renderer field is mutated and no
buffer mapping happens here; the function returns before any readback. -/
def IrisRenderer.render (r : IrisRenderer) (camera : Camera) :
    IrisRenderer × List Act :=
  (r,
   [Act.write_uniforms camera.build_view_projection_matrix
      (imageScale r.image_dims),
    Act.begin_render_pass,
    Act.set_pipeline,
    Act.set_bind_group r.bind_group,
    Act.draw 6,
    Act.end_pass,
    Act.copy_texture_to_buffer r.output_target.padded_bytes_per_row r.height,
    Act.submit])

/-! ## Viewport controller (src/viewport/mod.rs) -/

/-- One execution of the tick callback body with a live renderer
(`Viewport::new`, the `add_tick_callback` closure): clamp the widget
size to at least 1, resize renderer and camera if the size changed,
render, then read back: `map_async(Read)`, `device.poll(Wait)`,
`block_on(receiver)`, and if the channel delivered, hand the mapped
bytes to the display as a `(width, height, stride)` memory texture and
unmap. -/
def Viewport.tick (r : IrisRenderer) (c : Camera) (picW picH : Nat)
    (channel_delivered : Bool) : IrisRenderer × Camera × List Act :=
  let current_width := max picW 1
  let current_height := max picH 1
  let resized :=
    if r.width ≠ current_width ∨ r.height ≠ current_height then
      (r.resize current_width current_height,
       c.set_viewport_size current_width current_height,
       [Act.camera_set_viewport current_width current_height])
    else (r, c, [])
  let r1 := resized.1
  let c1 := resized.2.1
  let rendered := r1.render c1
  let readback :=
    [Act.map_async_read, Act.device_poll_wait, Act.block_on_receiver] ++
      (if channel_delivered then
        [Act.present_frame rendered.1.width rendered.1.height
           rendered.1.output_target.padded_bytes_per_row,
         Act.unmap_buffer]
      else [])
  (rendered.1, c1, resized.2.2 ++ rendered.2 ++ readback)

/-- The completion handler of `Viewport::load_image` (the
`spawn_future_local` body once the decode thread has answered):
a decoded image is uploaded via `IrisRenderer::load_image`; a decode
failure only logs and leaves the renderer untouched. -/
def Viewport.on_decode_result (r : IrisRenderer)
    (decoded : Option (Nat × Nat × List Nat)) : IrisRenderer × List Act :=
  match decoded with
  | some (w, h, rgba) => (r.load_image w h rgba, [])
  | none => (r, [Act.log_decode_error])

/-- The operations that can reach a renderer state. -/
inductive ViewportOp where
  | load_ok (w h : Nat) (rgba : List Nat)
  | load_err
  | resize_op (w h : Nat)
  | render_op (c : Camera)
deriving Repr

def stepOp (r : IrisRenderer) (op : ViewportOp) : IrisRenderer :=
  match op with
  | ViewportOp.load_ok w h rgba => r.load_image w h rgba
  | ViewportOp.load_err => (Viewport.on_decode_result r none).1
  | ViewportOp.resize_op w h => r.resize w h
  | ViewportOp.render_op c => (r.render c).1

def runOps (r : IrisRenderer) (ops : List ViewportOp) : IrisRenderer :=
  ops.foldl stepOp r

/-- Modelled from the spec: "row_stride_bytes = width×4 rounded up to the
next multiple of 256", as exact (unbounded) natural arithmetic. -/
def spec_row_stride (width : Nat) : Nat :=
  256 * ((width * 4 + 255) / 256)

/-! ## Theorems -/

/-- C3: for every current image with width `w > 0` and height `h > 0` and
aspect `a = w/h`, the image scale written into the uniform block by
`render` is `(1, 1/a)` if `a > 1` and `(a, 1)` otherwise, and both
components lie in `(0, 1]`. -/
theorem c3_image_scale (w h : ℚ) (hw : 0 < w) (hh : 0 < h) :
    (1 < w / h → imageScale (w, h) = (1, 1 / (w / h)))
    ∧ (¬1 < w / h → imageScale (w, h) = (w / h, 1))
    ∧ 0 < (imageScale (w, h)).1 ∧ (imageScale (w, h)).1 ≤ 1
    ∧ 0 < (imageScale (w, h)).2 ∧ (imageScale (w, h)).2 ≤ 1 := by
  have ha : 0 < w / h := div_pos hw hh
  by_cases h1 : 1 < w / h
  · refine ⟨fun _ => by simp [imageScale, h1], fun hc => absurd h1 hc, ?_, ?_, ?_, ?_⟩ <;>
      simp [imageScale, h1]
    · exact div_pos hh hw
    · exact (div_le_one hw).mpr (le_of_lt ((one_lt_div hh).mp h1))
  · refine ⟨fun hc => absurd hc h1, fun _ => by simp [imageScale, h1], ?_, ?_, ?_, ?_⟩ <;>
      simp [imageScale, h1]
    · exact ha
    · exact not_lt.mp h1

/-- Witness for C3 at the concrete image dimensions 3×2 (a wide image,
aspect 3/2 > 1). -/
theorem c3_image_scale_witness :
    imageScale ((3 : ℚ), (2 : ℚ)) = (1, 1 / ((3 : ℚ) / 2))
    ∧ 0 < (imageScale ((3 : ℚ), (2 : ℚ))).2
    ∧ (imageScale ((3 : ℚ), (2 : ℚ))).2 ≤ 1 :=
  ⟨(c3_image_scale 3 2 (by norm_num) (by norm_num)).1 (by norm_num),
   (c3_image_scale 3 2 (by norm_num) (by norm_num)).2.2.2.2.1,
   (c3_image_scale 3 2 (by norm_num) (by norm_num)).2.2.2.2.2⟩

/-- C5: `build_view_projection_matrix` is the orthographic projection
(half-extents `aspect_ratio` and `1`) composed with
`scale(zoom, zoom, 1) * translate(-position.x, -position.y, 0)`; at
position `(0,0)`, zoom `1`, aspect ratio `1` it is the identity up to the
projection's fixed depth range (third column `(0,0,-1/2,0)`, depth
offset `1/2`), mapping world `(0,0)` to the screen origin and `(1,0)` to
the right viewport edge `x = 1`. -/
theorem c5_default_camera_matrix :
    (∀ c : Camera,
      c.build_view_projection_matrix =
        (Mat4Q.orthographic_rh (-c.aspect_ratio) c.aspect_ratio (-1) 1 (-1) 1).mul
          ((Mat4Q.from_scale c.zoom c.zoom 1).mul
            (Mat4Q.from_translation (-c.position.1) (-c.position.2) 0)))
    ∧ Camera.new.build_view_projection_matrix =
        ⟨⟨1, 0, 0, 0⟩, ⟨0, 1, 0, 0⟩, ⟨0, 0, -(1 / 2), 0⟩, ⟨0, 0, 1 / 2, 1⟩⟩
    ∧ Camera.new.build_view_projection_matrix.mulVec ⟨0, 0, 0, 1⟩ = ⟨0, 0, 1 / 2, 1⟩
    ∧ Camera.new.build_view_projection_matrix.mulVec ⟨1, 0, 0, 1⟩ = ⟨1, 0, 1 / 2, 1⟩ := by
  refine ⟨fun c => rfl, ?_, ?_, ?_⟩ <;>
    norm_num [Camera.new, Camera.build_view_projection_matrix, Mat4Q.orthographic_rh,
      Mat4Q.from_scale, Mat4Q.from_translation, Mat4Q.mul, Mat4Q.mulVec,
      Vec4Q.smul, Vec4Q.add, Mat4Q.mk.injEq, Vec4Q.mk.injEq]

/-- C6 counterexample: `set_viewport_size 0 1` is accepted by the
`height > 0` guard and sets `aspect_ratio` to `0`, which does produce a
degenerate view-projection matrix: the distinct world points `(0,0)` and
`(1,0)` are mapped to the same clip-space point (in the `f32` source the
matrix entries are non-finite, equally degenerate), refuting the claim
that no degenerate matrix can result. -/
theorem c6_degenerate_matrix_counterexample :
    (Camera.new.set_viewport_size 0 1).aspect_ratio = 0
    ∧ (Camera.new.set_viewport_size 0 1).build_view_projection_matrix.mulVec
        ⟨1, 0, 0, 1⟩ =
      (Camera.new.set_viewport_size 0 1).build_view_projection_matrix.mulVec
        ⟨0, 0, 0, 1⟩ := by
  constructor <;>
    norm_num [Camera.new, Camera.set_viewport_size, Camera.build_view_projection_matrix,
      Mat4Q.orthographic_rh, Mat4Q.from_scale, Mat4Q.from_translation, Mat4Q.mul,
      Mat4Q.mulVec, Vec4Q.smul, Vec4Q.add, Mat4Q.mk.injEq, Vec4Q.mk.injEq]

/-- C6 (amended): `set_viewport_size(width, height)` sets `aspect_ratio`
to `width/height` when `height > 0` and leaves the camera entirely
unchanged otherwise; position and zoom are unchanged in every case; no
division by zero is performed (the divisor is positive whenever the
division executes); and when `width > 0` as well, the resulting aspect
ratio is positive (for `width = 0` the aspect ratio becomes `0` and the
matrix degenerates, see the counterexample). -/
theorem c6_set_viewport_size (c : Camera) (w h : Nat) :
    (0 < h → c.set_viewport_size w h = { c with aspect_ratio := (w : ℚ) / (h : ℚ) })
    ∧ (h = 0 → c.set_viewport_size w h = c)
    ∧ (c.set_viewport_size w h).position = c.position
    ∧ (c.set_viewport_size w h).zoom = c.zoom
    ∧ (0 < w → 0 < h → 0 < (c.set_viewport_size w h).aspect_ratio) := by
  by_cases hh : 0 < h
  · refine ⟨fun _ => by simp [Camera.set_viewport_size, hh], fun h0 => by omega,
      by simp [Camera.set_viewport_size, hh], by simp [Camera.set_viewport_size, hh],
      fun hw _ => ?_⟩
    have hwq : (0 : ℚ) < (w : ℚ) := by exact_mod_cast hw
    have hhq : (0 : ℚ) < (h : ℚ) := by exact_mod_cast hh
    simpa [Camera.set_viewport_size, hh] using div_pos hwq hhq
  · refine ⟨fun hc => absurd hc hh, fun _ => by simp [Camera.set_viewport_size, hh],
      ?_, ?_, fun _ hc => absurd hc hh⟩ <;> simp [Camera.set_viewport_size, hh]

/-- Witness for C6 at the concrete viewport size 16×9. -/
theorem c6_set_viewport_size_witness :
    Camera.new.set_viewport_size 16 9 =
      { Camera.new with aspect_ratio := ((16 : Nat) : ℚ) / ((9 : Nat) : ℚ) }
    ∧ (Camera.new.set_viewport_size 16 9).zoom = Camera.new.zoom
    ∧ 0 < (Camera.new.set_viewport_size 16 9).aspect_ratio :=
  ⟨(c6_set_viewport_size Camera.new 16 9).1 (by norm_num),
   (c6_set_viewport_size Camera.new 16 9).2.2.2.1,
   (c6_set_viewport_size Camera.new 16 9).2.2.2.2 (by norm_num) (by norm_num)⟩

/-- C10: a freshly constructed renderer, before any image has been
loaded, binds the 1×1 opaque-white default texture (single texel
`[255,255,255,255]`), has `image_dims = (1, 1)`, and every render call in
that state emits the full draw trace with image scale `(1, 1)`. -/
theorem c10_fresh_renderer (width height : Nat) (c : Camera) :
    (IrisRenderer.new width height).bind_group = ⟨⟨1, 1, [255, 255, 255, 255]⟩⟩
    ∧ (IrisRenderer.new width height).image_dims = (1, 1)
    ∧ imageScale (IrisRenderer.new width height).image_dims = (1, 1)
    ∧ Act.write_uniforms c.build_view_projection_matrix (1, 1) ∈
        ((IrisRenderer.new width height).render c).2
    ∧ ((IrisRenderer.new width height).render c).2.length = 8 := by
  refine ⟨rfl, rfl, ?_, ?_, rfl⟩
  · norm_num [IrisRenderer.new, imageScale]
  · have hs : imageScale (IrisRenderer.new width height).image_dims = (1, 1) := by
      norm_num [IrisRenderer.new, imageScale]
    simp [IrisRenderer.render, hs]

/-- C1 counterexample: `IrisRenderer::render` ends with the queue
submission; it performs no buffer mapping and no unmapping and returns
no pixel buffer (its Rust return type is `()`).  The readback the claim
attributes to `render` happens in the tick callback of
`Viewport::new`, after `render` has returned. -/
theorem c1_render_no_readback_counterexample :
    Act.map_async_read ∉ ((IrisRenderer.new 1 1).render Camera.new).2
    ∧ Act.unmap_buffer ∉ ((IrisRenderer.new 1 1).render Camera.new).2
    ∧ ((IrisRenderer.new 1 1).render Camera.new).2.getLast? = some Act.submit := by
  refine ⟨?_, ?_, ?_⟩ <;> simp [IrisRenderer.render]

/-- C1 (amended): the per-tick render routine draws and submits via
`render`, and then — still inside the same tick callback, before it
returns — maps the readback buffer for reading, blocks until the GPU
signals completion (`device.poll(Wait)` plus the blocking receive), hands
the mapped bytes to the display as a pixel buffer description
`(width, height, row_stride)`, and unmaps; `render` itself returns after
the submit, leaving the renderer unchanged.  One frame thus fully
completes, including readback, within one tick invocation. -/
theorem c1_tick_completes_frame (r : IrisRenderer) (c : Camera) (picW picH : Nat)
    (hw : r.width = max picW 1) (hh : r.height = max picH 1) :
    (Viewport.tick r c picW picH true).2.2 =
      (r.render c).2 ++
        [Act.map_async_read, Act.device_poll_wait, Act.block_on_receiver,
         Act.present_frame r.width r.height r.output_target.padded_bytes_per_row,
         Act.unmap_buffer]
    ∧ (Viewport.tick r c picW picH true).1 = r := by
  constructor <;> simp [Viewport.tick, hw, hh, IrisRenderer.render]

/-- Witness for C1 at a concrete renderer of size 5×7 with matching
widget size. -/
theorem c1_tick_completes_frame_witness :
    (Viewport.tick (IrisRenderer.new 5 7) Camera.new 5 7 true).2.2 =
      ((IrisRenderer.new 5 7).render Camera.new).2 ++
        [Act.map_async_read, Act.device_poll_wait, Act.block_on_receiver,
         Act.present_frame (IrisRenderer.new 5 7).width (IrisRenderer.new 5 7).height
           (IrisRenderer.new 5 7).output_target.padded_bytes_per_row,
         Act.unmap_buffer] :=
  (c1_tick_completes_frame (IrisRenderer.new 5 7) Camera.new 5 7
    (by decide) (by decide)).1

/-- The padding computation of `create_targets` equals the exact
round-up to the next multiple of 256 whenever that round-up fits in a
`u32`. -/
theorem pad_formula (w : Nat) (hfit : spec_row_stride w < u32Mod) :
    (w * 4 % u32Mod + (256 - w * 4 % u32Mod % 256) % 256) % u32Mod =
      spec_row_stride w := by
  simp only [spec_row_stride, u32Mod] at *
  omega

/-- C2 counterexample: at `width = 2^30` (and height 1) the `u32`
computation `width * 4` wraps (debug builds would panic), so the stored
`padded_bytes_per_row` is `0`, not `width*4` rounded up to the next
multiple of 256, which is `2^32`. -/
theorem c2_stride_overflow_counterexample :
    (IrisRenderer.new 1073741824 1).output_target.padded_bytes_per_row ≠
      spec_row_stride 1073741824
    ∧ (IrisRenderer.new 1073741824 1).output_target.padded_bytes_per_row = 0 := by
  constructor <;> decide

/-- C2 (amended): for every `width, height > 0` such that `width*4`
rounded up to the next multiple of 256 fits in a `u32`, the output
target created at construction and by any effective resize has
`padded_bytes_per_row` equal to that round-up; when additionally
`stride * height` fits in a `u32`, the readback buffer size equals
`stride * height` (outside these bounds the 32-bit arithmetic wraps);
the target is recreated (allocation counter incremented) exactly when
the stored `(width, height)` changes and is never mutated in place — an
ineffective resize returns the renderer, target included, unchanged. -/
theorem c2_row_stride (width height : Nat) (r : IrisRenderer)
    (hw : 0 < width) (hh : 0 < height) (hfit : spec_row_stride width < u32Mod) :
    (IrisRenderer.new width height).output_target.padded_bytes_per_row =
      spec_row_stride width
    ∧ (spec_row_stride width * height < u32Mod →
        (IrisRenderer.new width height).output_target.buffer_size =
          spec_row_stride width * height)
    ∧ (width ≠ r.width ∨ height ≠ r.height →
        (r.resize width height).output_target =
          create_targets (r.alloc_count + 1) width height
        ∧ (r.resize width height).output_target.padded_bytes_per_row =
            spec_row_stride width)
    ∧ ((r.resize width height).alloc_count = r.alloc_count + 1 ↔
        width ≠ r.width ∨ height ≠ r.height)
    ∧ (width = r.width ∧ height = r.height → r.resize width height = r) := by
  have hpad : ∀ a h2 : Nat,
      (create_targets a width h2).padded_bytes_per_row = spec_row_stride width :=
    fun a h2 => pad_formula width hfit
  refine ⟨hpad 1 height, fun hsz => ?_, fun hchg => ?_, ?_, fun hsame => ?_⟩
  · show (create_targets 1 width height).buffer_size = _
    simp only [create_targets]
    rw [pad_formula width hfit]
    exact Nat.mod_eq_of_lt hsz
  · constructor
    · simp [IrisRenderer.resize, hw, hh, hchg]
    · rw [show (r.resize width height).output_target =
          create_targets (r.alloc_count + 1) width height by
        simp [IrisRenderer.resize, hw, hh, hchg]]
      exact hpad _ height
  · constructor
    · intro halloc
      by_contra hsame
      push_neg at hsame
      have heq : r.resize width height = r := by
        simp [IrisRenderer.resize, hsame.1, hsame.2]
      rw [heq] at halloc
      omega
    · intro hchg
      simp [IrisRenderer.resize, hw, hh, hchg]
  · have hng : ¬(0 < width ∧ 0 < height ∧ (width ≠ r.width ∨ height ≠ r.height)) := by
      simp [hsame.1, hsame.2]
    simp [IrisRenderer.resize, hng]

/-- Witness for C2 at width 64, height 3 (stride 256, buffer 768) and an
effective resize of a 100×100 renderer to 64×3. -/
theorem c2_row_stride_witness :
    (IrisRenderer.new 64 3).output_target.padded_bytes_per_row = spec_row_stride 64
    ∧ (IrisRenderer.new 64 3).output_target.buffer_size = spec_row_stride 64 * 3
    ∧ ((IrisRenderer.new 100 100).resize 64 3).alloc_count =
        (IrisRenderer.new 100 100).alloc_count + 1 :=
  ⟨(c2_row_stride 64 3 (IrisRenderer.new 100 100) (by decide) (by decide) (by decide)).1,
   (c2_row_stride 64 3 (IrisRenderer.new 100 100) (by decide) (by decide)
      (by decide)).2.1 (by decide),
   (c2_row_stride 64 3 (IrisRenderer.new 100 100) (by decide) (by decide)
      (by decide)).2.2.2.1.mpr (by decide)⟩

/-- C4: `resize(width, height)` recreates the output target and readback
buffer (bumping the allocation counter) exactly when both dimensions are
positive and at least one differs from the current ones; a call with the
current dimensions or with a zero dimension returns the renderer with
every field unchanged; consequently the sequence
`resize(100,100); resize(100,100); resize(200,150)` on a 100×100
renderer performs exactly one reallocation. -/
theorem c4_resize_reallocation (r : IrisRenderer) (w h : Nat) :
    ((0 < w ∧ 0 < h ∧ (w ≠ r.width ∨ h ≠ r.height)) →
      r.resize w h =
        { r with
          width := w
          height := h
          output_target := create_targets (r.alloc_count + 1) w h
          alloc_count := r.alloc_count + 1 })
    ∧ (¬(0 < w ∧ 0 < h ∧ (w ≠ r.width ∨ h ≠ r.height)) → r.resize w h = r)
    ∧ (∀ s : IrisRenderer, s.width = 100 → s.height = 100 →
        (((s.resize 100 100).resize 100 100).resize 200 150).alloc_count =
          s.alloc_count + 1) := by
  refine ⟨fun hg => by simp [IrisRenderer.resize, hg.1, hg.2.1, hg.2.2],
    fun hg => by simp [IrisRenderer.resize, hg], fun s hsw hsh => ?_⟩
  have e1 : s.resize 100 100 = s := by
    simp [IrisRenderer.resize, hsw, hsh]
  rw [e1, e1]
  simp [IrisRenderer.resize, hsw, hsh]

/-- Witness for C4: the spec's resize sequence on a concrete 100×100
renderer increments the allocation counter exactly once. -/
theorem c4_resize_reallocation_witness :
    ((((IrisRenderer.new 100 100).resize 100 100).resize 100 100).resize
        200 150).alloc_count = (IrisRenderer.new 100 100).alloc_count + 1 :=
  (c4_resize_reallocation (IrisRenderer.new 100 100) 1 1).2.2
    (IrisRenderer.new 100 100) (by decide) (by decide)

/-- C7: when the background decode fails, the completion handler leaves
the renderer — bound texture, resource-binding set and `image_dims` —
completely unchanged, only logs the failure (no panic: the handler is a
total function), and a subsequent render still succeeds with exactly the
trace it would have produced before. -/
theorem c7_decode_failure_recoverable (r : IrisRenderer) (c : Camera)
    (decoded : Option (Nat × Nat × List Nat)) (hfail : decoded = none) :
    (Viewport.on_decode_result r decoded).1 = r
    ∧ (Viewport.on_decode_result r decoded).2 = [Act.log_decode_error]
    ∧ (Viewport.on_decode_result r decoded).1.image_dims = r.image_dims
    ∧ (Viewport.on_decode_result r decoded).1.bind_group = r.bind_group
    ∧ ((Viewport.on_decode_result r decoded).1.render c).2 = (r.render c).2 := by
  subst hfail
  exact ⟨rfl, rfl, rfl, rfl, rfl⟩

/-- Witness for C7 at a concrete renderer that has a 10×5 image loaded
and then receives a decode failure. -/
theorem c7_decode_failure_recoverable_witness :
    (Viewport.on_decode_result
        ((IrisRenderer.new 4 4).load_image 10 5 []) none).1 =
      (IrisRenderer.new 4 4).load_image 10 5 []
    ∧ (Viewport.on_decode_result
        ((IrisRenderer.new 4 4).load_image 10 5 []) none).2 =
      [Act.log_decode_error] :=
  ⟨(c7_decode_failure_recoverable ((IrisRenderer.new 4 4).load_image 10 5 [])
      Camera.new none rfl).1,
   (c7_decode_failure_recoverable ((IrisRenderer.new 4 4).load_image 10 5 [])
      Camera.new none rfl).2.1⟩

/-- C8 counterexample: in `IrisRenderer::load_image` the `image_dims`
assignment is the second statement, well before the bind-group swap,
which alone is the last step — so the new texture, binding set and dims
are not installed together as the last step, contrary to the claim. -/
theorem c8_dims_not_installed_last_counterexample :
    load_image_steps.take 2 = [LoadStep.convert_rgba, LoadStep.set_image_dims]
    ∧ load_image_steps.getLast? = some LoadStep.swap_bind_group
    ∧ load_image_steps.getLast? ≠ some LoadStep.set_image_dims := by
  refine ⟨rfl, rfl, by decide⟩

/-- The C8 invariant: the stored image dimensions are exactly the
dimensions of the texture referenced by the current bind group. -/
def dims_match_bound_texture (r : IrisRenderer) : Prop :=
  r.image_dims =
    ((r.bind_group.texture.width : ℚ), (r.bind_group.texture.height : ℚ))

theorem stepOp_preserves_dims (r : IrisRenderer) (op : ViewportOp)
    (hr : dims_match_bound_texture r) : dims_match_bound_texture (stepOp r op) := by
  cases op with
  | load_ok w h rgba =>
      show dims_match_bound_texture (r.load_image w h rgba)
      simp [IrisRenderer.load_image, dims_match_bound_texture]
  | load_err =>
      show dims_match_bound_texture (Viewport.on_decode_result r none).1
      simpa [Viewport.on_decode_result, dims_match_bound_texture] using hr
  | resize_op w h =>
      show dims_match_bound_texture (r.resize w h)
      unfold IrisRenderer.resize
      split
      · simpa [dims_match_bound_texture] using hr
      · exact hr
  | render_op c =>
      show dims_match_bound_texture (r.render c).1
      simpa [IrisRenderer.render, dims_match_bound_texture] using hr

theorem runOps_preserves_dims (ops : List ViewportOp) (r : IrisRenderer)
    (hr : dims_match_bound_texture r) : dims_match_bound_texture (runOps r ops) := by
  induction ops generalizing r with
  | nil => exact hr
  | cons op rest ih => exact ih (stepOp r op) (stepOp_preserves_dims r op hr)

/-- C8 (amended): in every state reachable from a fresh renderer by any
sequence of operations (successful and failed loads, resizes, renders),
`image_dims` equals the dimensions of the texture referenced by the
current resource-binding set — never those of a partially uploaded one,
because the whole upload runs synchronously on the single rendering
thread; within `load_image` the dims are written first and the
bind-group swap is the last step. -/
theorem c8_dims_reflect_bound_texture (w0 h0 : Nat) (ops : List ViewportOp) :
    dims_match_bound_texture (runOps (IrisRenderer.new w0 h0) ops)
    ∧ load_image_steps.getLast? = some LoadStep.swap_bind_group := by
  refine ⟨runOps_preserves_dims ops (IrisRenderer.new w0 h0) ?_, rfl⟩
  simp [IrisRenderer.new, dims_match_bound_texture]

/-- C9 counterexample: the wgpu instance enables the GL backend, and the
host windowing surface (GTK) draws with a GL context itself, so the
chosen backends do share a context type with the host's own drawing
context, contrary to the claim. -/
theorem c9_gl_backend_shared_counterexample :
    host_surface_context ∈ instance_backends
    ∧ host_surface_context = Backend.gl := by
  exact ⟨by decide, rfl⟩

/-- C9 (amended): `GpuContext::new` requests a high-performance adapter
(with no compatible surface and no fallback forced) and restricts the
instance to the Vulkan and GL backends — the GL backend does share a
context type with the GTK host's GL drawing context; if no adapter is
found or device creation fails, initialization is fatal (the `expect`
calls abort) with no recovery path. -/
theorem c9_gpu_init_fatal (adapter_found device_created : Bool)
    (hfail : adapter_found = false ∨ device_created = false) :
    instance_backends = [Backend.vulkan, Backend.gl]
    ∧ adapter_options.power_preference = PowerPref.high_performance
    ∧ adapter_options.compatible_surface_is_none = true
    ∧ adapter_options.force_fallback_adapter = false
    ∧ GpuContext.new adapter_found device_created = none := by
  refine ⟨rfl, rfl, rfl, rfl, ?_⟩
  rcases hfail with h | h <;> subst h
  · simp [GpuContext.new]
  · cases adapter_found <;> simp [GpuContext.new]

/-- Witness for C9: with no adapter available, initialization aborts. -/
theorem c9_gpu_init_fatal_witness :
    GpuContext.new false true = none :=
  (c9_gpu_init_fatal false true (Or.inl rfl)).2.2.2.2
